import Mathlib

/-
Verification of the solana-monitor-bot event aggregation core.

Shallow embedding of src/app.py (and the enrichment contract of
src/utils.py): the per-token event buffer, the flush protocol
(`try_send_for_token`), the background sweeper tick, the webhook ingest
path (`solana_webhook`) and the message formatter
(`format_event_summary`), together with theorems checking the
specification's claims about them.

Modelling conventions:
  * wall-clock instants and asset amounts are rationals (the source uses
    Python floats from `time.time()` and `float(...)`);
  * the two module-level defaultdicts `token_events` / `last_notify` are
    the two fields of `BotState`, modelled as total functions with the
    defaultdict defaults (`[]`, `0`) baked into the initial state;
  * external collaborators (Helius metadata, Twitter lookup, Telegram
    delivery) are parameters: the metadata/tweet oracles are passed to
    the ingest path, delivery outcomes are booleans.  The Telegram send
    helpers catch every exception and only return a status, so delivery
    cannot influence control flow beyond the photo/text fallback;
  * dictionary keys are `Option String` because `swap.get("toMint")`
    may be `None`.
-/

/-- The `SOL_MINT` constant of src/app.py line 23. -/
def SOL_MINT : String := "So11111111111111111111111111111111111111112"

/-- Aggregation window in seconds (src/app.py line 24). -/
def WINDOW : ℚ := 60

/-- Per-token cooldown in seconds (src/app.py line 25). -/
def COOLDOWN : ℚ := 300

/-- Sweeper period in seconds (src/app.py line 26). -/
def SWEEPER_INTERVAL : ℚ := 15

/-- One buffered swap observation: the 11-tuple built at src/app.py
lines 214-226, with the tuple slots as named fields
(ts, buyer, sol, to_amount, signature, image_url, axiom buy url,
tweet_text, tweet_link, mint, symbol). -/
structure Event where
  ts : ℚ
  buyer : String
  sol : ℚ
  toAmount : String
  signature : Option String
  imageUrl : Option String
  buyUrl : String
  tweetText : Option String
  tweetLink : Option String
  mint : Option String
  symbol : String
deriving Repr, DecidableEq

/-- The process-wide mutable stores of src/app.py lines 31-32:
`token_events = defaultdict(list)` and `last_notify = defaultdict(lambda: 0)`. -/
structure BotState where
  token_events : Option String → List Event
  last_notify : Option String → ℚ

/-- The stores as they are at module load: every bucket empty, every
last-notify instant 0 (the defaultdict defaults). -/
def initState : BotState := ⟨fun _ => [], fun _ => 0⟩

/-- Dictionary write at one key: `token_events[mint] = evs`. -/
def setEvents (st : BotState) (mint : Option String) (evs : List Event) : BotState :=
  { st with token_events := fun m => if m = mint then evs else st.token_events m }

/-- Dictionary write `last_notify[mint] = t`. -/
def setNotify (st : BotState) (mint : Option String) (t : ℚ) : BotState :=
  { st with last_notify := fun m => if m = mint then t else st.last_notify m }

/-- Python truthiness of a string-or-None value: `None` and `""` are falsy. -/
def pyTruthyStr : Option String → Bool
  | some s => s != ""
  | none => false

/-- Python f-string rendering of a string-or-None value (`None` prints
as "None"). -/
def pyShowOptStr : Option String → String
  | some s => s
  | none => "None"

/-- A Python `or`-chain over string-like values ending in `None`:
returns the first truthy operand. -/
def firstTruthyStr : List (Option String) → Option String
  | [] => none
  | o :: rest => if pyTruthyStr o then o else firstTruthyStr rest

/-- What the ingest path observes of one raw JSON amount value:
its Python truthiness, the result of `float(value)` (`none` when
`float` raises), and its f-string display form. -/
structure RawVal where
  truthy : Bool
  parsed : Option ℚ
  disp : String
deriving Repr, DecidableEq

/-- The integer literal `0` that ends the `or`-chains at src/app.py
lines 196-197: falsy, parses to 0, displays as "0". -/
def zeroRaw : RawVal := ⟨false, some 0, "0"⟩

/-- Python `a or b` on a field-lookup result (`none` = key absent,
which is falsy). -/
def pyOrRaw (a : Option RawVal) (b : RawVal) : RawVal :=
  match a with
  | some v => if v.truthy then v else b
  | none => b

/-- The chain `swap.get("fromAmount") or swap.get("amountIn") or 0`
(src/app.py line 196). -/
def resolved_from_amount (sw_fromAmount sw_amountIn : Option RawVal) : RawVal :=
  pyOrRaw sw_fromAmount (pyOrRaw sw_amountIn zeroRaw)

/-- The coercion `try: from_amount = float(from_amount) except:
from_amount = 0.0` (src/app.py lines 200-203). -/
def parse_amount (r : RawVal) : ℚ := r.parsed.getD 0

/-- Remove events older than `WINDOW`:
`[e for e in events if now - e[0] <= WINDOW]` (src/app.py line 125). -/
def prune (now : ℚ) (events : List Event) : List Event :=
  events.filter (fun e => decide (now - e.ts ≤ WINDOW))

/-- Left-pad a fractional part to 4 digits. -/
def pad4 (n : Nat) : String :=
  let s := toString n
  ("".pushn '0' (4 - s.length)) ++ s

/-- Python `f"{x:.4f}"`: fixed 4-decimal formatting with ties rounded
to even.  The source formats an IEEE double; the model rounds the
exact rational. -/
def fmt4 (q : ℚ) : String :=
  let neg := decide (q < 0)
  let a : ℚ := |q| * 10000
  let fl : Nat := a.num.toNat / a.den
  let fr : ℚ := a - (fl : ℚ)
  let n : Nat :=
    if 1/2 < fr then fl + 1
    else if fr < 1/2 then fl
    else if fl % 2 = 0 then fl else fl + 1
  (if neg && (n != 0) then "-" else "") ++ toString (n / 10000) ++ "." ++ pad4 (n % 10000)

/-- The Solscan link of one event block:
`f"https://solscan.io/tx/{signature}" if signature else "N/A"`
(src/app.py line 99). -/
def solscan_of (e : Event) : String :=
  if pyTruthyStr e.signature then "https://solscan.io/tx/" ++ (e.signature.getD "") else "N/A"

/-- One per-event block of the summary message (src/app.py lines 100-104). -/
def item_of (e : Event) : String :=
  "💰 " ++ fmt4 e.sol ++ " SOL — `" ++ e.buyer ++ "`\n"
    ++ "📦 " ++ e.toAmount ++ "\n"
    ++ "🔗 [Solscan](" ++ solscan_of e ++ ") | [Buy on Axiom](" ++ e.buyUrl ++ ")\n\n"

/-- Sum of the base-asset amounts: `sum(e[2] for e in events)`. -/
def total_sol_of (events : List Event) : ℚ := (events.map Event.sol).sum

/-- The header line of the summary (src/app.py line 96). -/
def header_of (symbol : String) (events : List Event) : String :=
  "🔥 *" ++ symbol ++ "* — " ++ toString events.length
    ++ " buys aggregated • " ++ fmt4 (total_sol_of events) ++ " SOL total\n\n"

/-- Concatenation of the per-event blocks, in event order. -/
def items_of : List Event → String
  | [] => ""
  | e :: rest => item_of e ++ items_of rest

/-- The social block body for a given snapshot (src/app.py line 108). -/
def tweet_block (text : String) (link : Option String) : String :=
  "🐦 *Latest Verified tweet:*\n" ++ text ++ "\n🔗 " ++ pyShowOptStr link ++ "\n\n"

/-- The optional social section: present iff the FIRST event's tweet
text is truthy, and built from that first event's snapshot
(src/app.py lines 105-108, `# tweet summary (use first event's tweet)`). -/
def tweet_section_of (events : List Event) : String :=
  match events.head? with
  | none => ""
  | some e0 => if pyTruthyStr e0.tweetText then tweet_block (e0.tweetText.getD "") e0.tweetLink else ""

/-- The footer with the raw token identifier (src/app.py line 109). -/
def footer_of (events : List Event) : String :=
  match events.head? with
  | none => ""
  | some e0 => "🪪 Mint: `" ++ pyShowOptStr e0.mint ++ "`"

/-- The formatter `format_event_summary` (src/app.py lines 86-111): builds the
Markdown caption by accumulation exactly as the source does (header,
then a `+=` loop over events, then the first event's tweet section,
then the footer) and returns it with the first event's image URL.
On `[]` the Python original would raise IndexError at `events[0][9]`;
both call sites guard non-emptiness, so the `[]` branch returns a junk
value that is never consulted. -/
def format_event_summary (symbol : String) (events : List Event) : String × Option String :=
  match events with
  | [] => ("", none)
  | e0 :: rest =>
    let evs := e0 :: rest
    let buyers_count := evs.length
    let mint := e0.mint
    let image := e0.imageUrl
    let header := "🔥 *" ++ symbol ++ "* — " ++ toString buyers_count
      ++ " buys aggregated • " ++ fmt4 (total_sol_of evs) ++ " SOL total\n\n"
    let items := evs.foldl (fun acc e => acc ++ item_of e) ""
    let tweet_section :=
      if pyTruthyStr e0.tweetText then tweet_block (e0.tweetText.getD "") e0.tweetLink else ""
    let footer := "🪪 Mint: `" ++ pyShowOptStr mint ++ "`"
    (header ++ items ++ tweet_section ++ footer, image)

/-- What the specification's words ask the social block to carry:
"the most recent social snapshot text and link" among the summarized
events.  Events are kept in ascending timestamp order, so the most
recent one is the last. -/
def most_recent_social_spec (events : List Event) : Option String × Option String :=
  match events.getLast? with
  | some e => (e.tweetText, e.tweetLink)
  | none => (none, none)

/-- Result of one flush-attempt: the post-state, the caption/image pair
handed to the Telegram senders when the delivery step was reached, and
(as an observation) the list of events the summary covered. -/
structure FlushResult where
  state : BotState
  sent : Option (String × Option String)
  summarized : List Event

/-- The flush-attempt `try_send_for_token` (src/app.py lines 114-154), the whole body of
which runs under `with lock:`.  In order: read the bucket and return if
empty; prune; write the pruned list back; return if now empty; return
under cooldown (`now - last_notify[mint] < COOLDOWN`); return when the
earliest remaining event is younger than `WINDOW`; otherwise build the
summary, attempt delivery, and unconditionally set
`last_notify[mint] = now` and clear the bucket.  The photo/text
delivery outcomes (`photoOk`) do not influence the state update, which
the source performs regardless of success; the summary handed to the
senders is recorded in `sent`. -/
def try_send_for_token (photoOk : Bool) (mint : Option String) (now : ℚ) (st : BotState) :
    FlushResult :=
  match st.token_events mint with
  | [] => ⟨st, none, []⟩
  | e :: es =>
    let pruned := prune now (e :: es)
    let st1 := setEvents st mint pruned
    match pruned.head? with
    | none => ⟨st1, none, []⟩
    | some e0 =>
      if now - st1.last_notify mint < COOLDOWN then ⟨st1, none, []⟩
      else if now - e0.ts < WINDOW then ⟨st1, none, []⟩
      else
        ⟨setNotify (setEvents st1 mint []) mint now,
         some (format_event_summary e0.symbol pruned),
         pruned⟩

/-- The observable lock / network actions of one flush-attempt. -/
inductive LockAct where
  | acquire : LockAct
  | release : LockAct
  | sendPhoto : LockAct
  | sendText : LockAct
deriving Repr, DecidableEq

/-- The delivery calls at src/app.py lines 146-150:
`sent = False; if image: sent = send_telegram_photo(...);
if not sent: send_telegram_text(...)` — a photo attempt when the image
URL is truthy, then a text fallback when no photo was sent or the photo
send failed. -/
def send_actions (photoOk : Bool) (image : Option String) : List LockAct :=
  if pyTruthyStr image then
    LockAct.sendPhoto :: (if photoOk then [] else [LockAct.sendText])
  else [LockAct.sendText]

/-- The sends performed by the branch of `try_send_for_token` that the
gates select (empty prune / cooldown / window → none; otherwise the
photo/text delivery calls).  `setEvents` does not touch `last_notify`,
so the cooldown read takes the instant from the pre-state. -/
def flush_actions_body (photoOk : Bool) (now lastN : ℚ) : Option Event → List LockAct
  | none => []
  | some e0 =>
    if now - lastN < COOLDOWN then []
    else if now - e0.ts < WINDOW then []
    else send_actions photoOk e0.imageUrl

/-- The action trace of one `try_send_for_token` call: the source wraps
its entire body — the delivery calls included — in `with lock:`
(src/app.py line 118), so the trace is an acquire, then whatever sends
the reached branch performs, then the release. -/
def try_send_actions (photoOk : Bool) (mint : Option String) (now : ℚ) (st : BotState) :
    List LockAct :=
  LockAct.acquire ::
    ((if (st.token_events mint).isEmpty then []
      else flush_actions_body photoOk now (st.last_notify mint)
             (prune now (st.token_events mint)).head?)
      ++ [LockAct.release])

/-- The lock depth at which each send action of a trace occurs,
scanning left to right from depth `d`. -/
def send_depths (d : Nat) : List LockAct → List Nat
  | [] => []
  | LockAct.acquire :: r => send_depths (d + 1) r
  | LockAct.release :: r => send_depths (d - 1) r
  | _ :: r => d :: send_depths d r

/-- Every send action of the trace happens with the lock free. -/
def sends_outside_lock (tr : List LockAct) : Bool :=
  (send_depths 0 tr).all (fun d => d == 0)

/-- Every send action of the trace happens with the lock held. -/
def sends_inside_lock (tr : List LockAct) : Bool :=
  (send_depths 0 tr).all (fun d => d != 0)

/-- The `for mint in mints: try_send_for_token(mint)` loop of one
sweeper tick (src/app.py lines 166-167): attempts each key in order; an
exception raised by one attempt propagates out of the loop, so the keys
after it are not attempted.  Returns the keys actually attempted and
the escaping exception, if any. -/
def run_for (attempt : Option String → Except String Unit) :
    List (Option String) → List (Option String) × Option String
  | [] => ([], none)
  | m :: rest =>
    match attempt m with
    | Except.ok _ =>
      let r := run_for attempt rest
      (m :: r.1, r.2)
    | Except.error err => ([m], some err)

/-- One iteration of `sweeper_loop` (src/app.py lines 162-170): the
snapshot of keys is walked by `run_for`; the surrounding
`try/except Exception` catches whatever escapes the loop and the
sweeper proceeds to the next tick, so the second component — "the loop
survives this tick" — is always true. -/
def sweeper_tick (attempt : Option String → Except String Unit)
    (mints : List (Option String)) : List (Option String) × Bool :=
  ((run_for attempt mints).1, true)

/-- The metadata oracle contract of `get_token_metadata`
(src/utils.py lines 7-38): symbol, optional image URL, buy URL. -/
def MetaOracle : Type := Option String → String × Option String × String

/-- Append one event to a bucket (`token_events[to_mint].append(event)`)
then re-sort by timestamp
(`token_events[to_mint].sort(key=lambda e: e[0])`, src/app.py
lines 228-231).  `insert_by_ts` places an event before the first
strictly-later one, so the sort is stable like Python's. -/
def insert_by_ts (e : Event) : List Event → List Event
  | [] => [e]
  | x :: xs => if e.ts ≤ x.ts then e :: x :: xs else x :: insert_by_ts e xs

/-- Stable insertion sort by timestamp. -/
def sort_by_ts : List Event → List Event
  | [] => []
  | e :: es => insert_by_ts e (sort_by_ts es)

/-- Buffer an event for a mint: append, then sort by timestamp. -/
def addEvent (st : BotState) (mint : Option String) (e : Event) : BotState :=
  setEvents st mint (sort_by_ts (st.token_events mint ++ [e]))

/-- The `events.swap` block of a Helius payload as the ingest path
reads it (src/app.py lines 193-197). -/
structure SwapBlock where
  user : Option String
  signer : Option String
  fromMint : Option String
  toMint : Option String
  fromAmount : Option RawVal
  amountIn : Option RawVal
  toAmount : Option RawVal
  amountOut : Option RawVal
deriving Repr, DecidableEq

/-- A structurally parsed webhook payload (src/app.py lines 179-197):
optional signature/txHash, optional `events.swap` block, optional
`meta.signer`. -/
structure HeliusPayload where
  signature : Option String
  txHash : Option String
  swap : Option SwapBlock
  metaSigner : Option String
deriving Repr, DecidableEq

/-- The swap-present continuation of the webhook (src/app.py
lines 193-237): resolve buyer and amounts, apply the filter
(`if from_mint != SOL_MINT or from_amount < 5: ignored`), otherwise
enrich, buffer the event and immediately run a flush-attempt. -/
def handle_swap (now : ℚ) (meta : MetaOracle) (tweet : Option String × Option String)
    (photoOk : Bool) (p : HeliusPayload) (sw : SwapBlock) (st : BotState) :
    (String × Nat) × BotState :=
  if sw.fromMint ≠ some SOL_MINT ∨
      parse_amount (resolved_from_amount sw.fromAmount sw.amountIn) < 5 then
    (("ignored", 200), st)
  else
    let signature := firstTruthyStr [p.signature, p.txHash]
    let buyer := (firstTruthyStr [sw.user, sw.signer, p.metaSigner]).getD "unknown"
    let m := meta sw.toMint
    let to_amount := pyOrRaw sw.toAmount (pyOrRaw sw.amountOut zeroRaw)
    let event : Event :=
      { ts := now, buyer := buyer,
        sol := parse_amount (resolved_from_amount sw.fromAmount sw.amountIn),
        toAmount := to_amount.disp,
        signature := signature, imageUrl := m.2.1, buyUrl := m.2.2,
        tweetText := tweet.1, tweetLink := tweet.2, mint := sw.toMint, symbol := m.1 }
    let st1 := addEvent st sw.toMint event
    (("ok", 200), (try_send_for_token photoOk sw.toMint now st1).state)

/-- The ingest endpoint `solana_webhook` (src/app.py lines 173-237).  `payload = none`
models a missing or falsy JSON body (`request.get_json(silent=True)`
returning `None` or `{}`) → "bad request"/400; a payload without an
`events.swap` block → "ignored"/200 with the stores untouched; a swap
block is handled by `handle_swap`. -/
def solana_webhook (now : ℚ) (meta : MetaOracle) (tweet : Option String × Option String)
    (photoOk : Bool) (payload : Option HeliusPayload) (st : BotState) :
    (String × Nat) × BotState :=
  match payload with
  | none => (("bad request", 400), st)
  | some p =>
    match p.swap with
    | none => (("ignored", 200), st)
    | some sw => handle_swap now meta tweet photoOk p sw st

/-- A minimal qualifying event at time `t` spending `amt` SOL, used by
the concrete scenarios. -/
def mkEv (t amt : ℚ) : Event :=
  { ts := t, buyer := "buyer", sol := amt, toAmount := "0",
    signature := none, imageUrl := none, buyUrl := "https://example.com/buy",
    tweetText := none, tweetLink := none, mint := some "T", symbol := "TOK" }

/-- The specification's walkthrough scenario, shifted by a base instant
of 1000 so that the never-notified default `last_notify = 0` behaves as
the spec's "effectively -infinity" (with literal epoch-0 timestamps the
cooldown gate `now - 0 < 300` would additionally mask every attempt):
three qualifying events for token T at t = 1000, 1010, 1030 with
amounts 5, 6, 7. -/
def scenSt0 : BotState :=
  setEvents initState (some "T") [mkEv 1000 5, mkEv 1010 6, mkEv 1030 7]

/-- State with one buffered event whose age at instant 360 is exactly
`WINDOW`, the only age at which the flush conditions can all hold. -/
def wSt : BotState := setEvents initState (some "T") [mkEv 300 6]

/-- State with one young buffered event (for the window-gate witness). -/
def wStYoung : BotState := setEvents initState (some "T") [mkEv 350 6]

/-- An event carrying the older social snapshot. -/
def cEvOld : Event :=
  { ts := 0, buyer := "b1", sol := 6, toAmount := "1",
    signature := none, imageUrl := none, buyUrl := "https://example.com/buy",
    tweetText := some "old tweet", tweetLink := some "https://x.com/old",
    mint := some "T", symbol := "TOK" }

/-- A later event carrying the newer social snapshot. -/
def cEvNew : Event :=
  { ts := 10, buyer := "b2", sol := 6, toAmount := "1",
    signature := none, imageUrl := none, buyUrl := "https://example.com/buy",
    tweetText := some "new tweet", tweetLink := some "https://x.com/new",
    mint := some "T", symbol := "TOK" }

/-- A concrete metadata oracle for the ingest witnesses. -/
def wMeta : MetaOracle := fun _ => ("TOK", none, "https://example.com/buy")

/-- A structurally valid swap whose base asset is not the settlement
asset. -/
def wSwapWrongMint : SwapBlock :=
  { user := none, signer := none, fromMint := some "OtherMint", toMint := some "T",
    fromAmount := some ⟨true, some 9, "9"⟩, amountIn := none,
    toAmount := none, amountOut := none }

/-- A structurally valid swap from the settlement asset whose amount
field holds a non-numeric value (`float` raises on it). -/
def wSwapBadAmount : SwapBlock :=
  { user := none, signer := none, fromMint := some SOL_MINT, toMint := some "T",
    fromAmount := some ⟨true, none, "not-a-number"⟩, amountIn := none,
    toAmount := none, amountOut := none }

/-- Wrap a swap block into a payload. -/
def wPayload (sw : SwapBlock) : HeliusPayload :=
  { signature := none, txHash := none, swap := some sw, metaSigner := none }

/-- A sweeper attempt function that raises on token A and succeeds on
every other token. -/
def raiseOnA : Option String → Except String Unit :=
  fun m => if m = some "A" then Except.error "boom" else Except.ok ()

/-- Scenario flush-attempt at t = 1031 (the spec's t = 31). -/
def scenR31 : FlushResult := try_send_for_token true (some "T") 1031 scenSt0

/-- Scenario flush-attempt at t = 1061 (the spec's t = 61). -/
def scenR61 : FlushResult := try_send_for_token true (some "T") 1061 scenR31.state

/-- Scenario state after the new qualifying event at t = 1065. -/
def scenSt65 : BotState := addEvent scenR61.state (some "T") (mkEv 1065 6)

/-- Scenario flush-attempt at t = 1066. -/
def scenR66 : FlushResult := try_send_for_token true (some "T") 1066 scenSt65

/-- Scenario flush-attempt at t = 1365 (the spec's t = 365). -/
def scenR365 : FlushResult := try_send_for_token true (some "T") 1365 scenR66.state

attribute [local semireducible] Rat.add Rat.sub Rat.mul Rat.inv Rat.ofScientific

/-- Writing a bucket with `setEvents` leaves `last_notify` untouched. -/
theorem last_notify_setEvents (st : BotState) (k : Option String) (v : List Event) :
    (setEvents st k v).last_notify = st.last_notify := rfl

/-- Reading back the bucket just written. -/
theorem token_events_setEvents_self (st : BotState) (k : Option String) (v : List Event) :
    (setEvents st k v).token_events k = v := by
  simp [setEvents]

/-- Writing an instant with `setNotify` leaves `token_events` untouched. -/
theorem token_events_setNotify (st : BotState) (k : Option String) (t : ℚ) :
    (setNotify st k t).token_events = st.token_events := rfl

/-- Reading back the notify instant just written. -/
theorem last_notify_setNotify_self (st : BotState) (k : Option String) (t : ℚ) :
    (setNotify st k t).last_notify k = t := by
  simp [setNotify]

/-- Membership in a pruned bucket. -/
theorem mem_prune (now : ℚ) (l : List Event) (e : Event) :
    e ∈ prune now l ↔ e ∈ l ∧ now - e.ts ≤ WINDOW := by
  simp [prune, List.mem_filter]

/-- Pruning twice at the same instant is pruning once. -/
theorem prune_idem (now : ℚ) (l : List Event) :
    prune now (prune now l) = prune now l := by
  simp [prune, List.filter_filter]

/-- Exhaustive description of one flush-attempt: it is (A) a pure no-op
on an empty bucket, (B) a prune-only write when everything was stale,
(C) a prune-only write when the cooldown or the window gate fires, or
(D) a commit that clears the bucket, stamps `last_notify`, and hands
the summary of the pruned events to the senders. -/
theorem try_send_cases (photoOk : Bool) (mint : Option String) (now : ℚ) (st : BotState) :
    (st.token_events mint = [] ∧
      try_send_for_token photoOk mint now st = ⟨st, none, []⟩)
    ∨ (st.token_events mint ≠ [] ∧ prune now (st.token_events mint) = [] ∧
      try_send_for_token photoOk mint now st =
        ⟨setEvents st mint (prune now (st.token_events mint)), none, []⟩)
    ∨ (∃ e0, (prune now (st.token_events mint)).head? = some e0 ∧
      (now - st.last_notify mint < COOLDOWN ∨
        (COOLDOWN ≤ now - st.last_notify mint ∧ now - e0.ts < WINDOW)) ∧
      try_send_for_token photoOk mint now st =
        ⟨setEvents st mint (prune now (st.token_events mint)), none, []⟩)
    ∨ (∃ e0, (prune now (st.token_events mint)).head? = some e0 ∧
      COOLDOWN ≤ now - st.last_notify mint ∧ WINDOW ≤ now - e0.ts ∧
      try_send_for_token photoOk mint now st =
        ⟨setNotify (setEvents (setEvents st mint (prune now (st.token_events mint))) mint []) mint now,
         some (format_event_summary e0.symbol (prune now (st.token_events mint))),
         prune now (st.token_events mint)⟩) := by
  unfold try_send_for_token
  cases hL : st.token_events mint with
  | nil => exact Or.inl ⟨rfl, rfl⟩
  | cons e es =>
    simp only []
    cases hP : (prune now (e :: es)).head? with
    | none =>
      refine Or.inr (Or.inl ⟨by simp, ?_, rfl⟩)
      exact List.head?_eq_none_iff.mp hP
    | some e0 =>
      by_cases hcool : now - (setEvents st mint (prune now (e :: es))).last_notify mint < COOLDOWN
      · refine Or.inr (Or.inr (Or.inl ⟨e0, rfl, Or.inl ?_, ?_⟩))
        · exact hcool
        · simp only [if_pos hcool]
      · by_cases hwin : now - e0.ts < WINDOW
        · refine Or.inr (Or.inr (Or.inl ⟨e0, rfl, Or.inr ⟨le_of_not_lt hcool, hwin⟩, ?_⟩))
          simp only [if_neg hcool, if_pos hwin]
        · refine Or.inr (Or.inr (Or.inr ⟨e0, rfl, le_of_not_lt hcool, le_of_not_lt hwin, ?_⟩))
          simp only [if_neg hcool, if_neg hwin]

/-- Any flush-attempt made while the cooldown is active sends nothing,
leaves `last_notify` alone, and leaves exactly the pruned events in the
bucket. -/
theorem cooldown_blocks (photoOk : Bool) (mint : Option String) (now : ℚ) (st : BotState)
    (h : now - st.last_notify mint < COOLDOWN) :
    (try_send_for_token photoOk mint now st).sent = none
    ∧ (try_send_for_token photoOk mint now st).state.last_notify mint = st.last_notify mint
    ∧ (try_send_for_token photoOk mint now st).state.token_events mint =
        prune now (st.token_events mint) := by
  rcases try_send_cases photoOk mint now st with ⟨hL, heq⟩ | ⟨_, _, heq⟩ |
      ⟨e1, h1, _, heq⟩ | ⟨e1, h1, h2, h3, heq⟩
  · rw [heq, hL]; exact ⟨rfl, rfl, rfl⟩
  · rw [heq]; exact ⟨rfl, rfl, (token_events_setEvents_self st mint _)⟩
  · rw [heq]; exact ⟨rfl, rfl, (token_events_setEvents_self st mint _)⟩
  · exact absurd h (not_lt.mpr h2)

/-- If a flush-attempt reached the delivery step, it stamped
`last_notify` with the flush instant. -/
theorem sent_forces_commit (photoOk : Bool) (mint : Option String) (now : ℚ) (st : BotState)
    (h : (try_send_for_token photoOk mint now st).sent ≠ none) :
    (try_send_for_token photoOk mint now st).state.last_notify mint = now := by
  rcases try_send_cases photoOk mint now st with ⟨_, heq⟩ | ⟨_, _, heq⟩ |
      ⟨e1, _, _, heq⟩ | ⟨e1, _, _, _, heq⟩
  · rw [heq] at h; exact absurd rfl h
  · rw [heq] at h; exact absurd rfl h
  · rw [heq] at h; exact absurd rfl h
  · rw [heq]; exact last_notify_setNotify_self _ mint now

/-- C2: every flush-attempt that reaches the delivery step (non-empty
pruned bucket, cooldown expired, window elapsed) clears the token's
events and sets `last_notify` to the flush instant in the same state
update, for every delivery outcome `photoOk`; the summary handed to the
senders is the one over the pruned bucket. -/
theorem c2_flush_commits_state (photoOk : Bool) (mint : Option String) (now : ℚ)
    (st : BotState) (e0 : Event)
    (hhead : (prune now (st.token_events mint)).head? = some e0)
    (hcool : COOLDOWN ≤ now - st.last_notify mint)
    (hwin : WINDOW ≤ now - e0.ts) :
    (try_send_for_token photoOk mint now st).state.token_events mint = []
    ∧ (try_send_for_token photoOk mint now st).state.last_notify mint = now
    ∧ (try_send_for_token photoOk mint now st).sent =
        some (format_event_summary e0.symbol (prune now (st.token_events mint))) := by
  rcases try_send_cases photoOk mint now st with ⟨hL, heq⟩ | ⟨_, hpr, heq⟩ |
      ⟨e1, h1, hgate, heq⟩ | ⟨e1, h1, _, _, heq⟩
  · rw [hL] at hhead; simp [prune] at hhead
  · rw [hpr] at hhead; simp at hhead
  · rw [h1] at hhead
    injection hhead with he
    subst he
    rcases hgate with hg | ⟨_, hg⟩
    · exact absurd hg (not_lt.mpr hcool)
    · exact absurd hg (not_lt.mpr hwin)
  · rw [h1] at hhead
    injection hhead with he
    subst he
    rw [heq]
    refine ⟨?_, ?_, rfl⟩
    · rw [token_events_setNotify, token_events_setEvents_self]
    · exact last_notify_setNotify_self _ mint now

/-- C2 witness: with one event of age exactly `WINDOW` (the only age at
which the gates can all pass), a flush at t = 360 with the sink
reporting failure still empties the bucket and sets
`last_notify = 360`. -/
theorem c2_flush_commits_state_witness :
    ((prune 360 (wSt.token_events (some "T"))).head? = some (mkEv 300 6)
      ∧ COOLDOWN ≤ (360 : ℚ) - wSt.last_notify (some "T")
      ∧ WINDOW ≤ (360 : ℚ) - (mkEv 300 6).ts)
    ∧ (try_send_for_token false (some "T") 360 wSt).state.token_events (some "T") = []
    ∧ (try_send_for_token false (some "T") 360 wSt).state.last_notify (some "T") = 360 := by
  refine ⟨⟨by decide, by decide, by decide⟩, ?_⟩
  have h := c2_flush_commits_state false (some "T") 360 wSt (mkEv 300 6)
    (by decide) (by decide) (by decide)
  exact ⟨h.1, h.2.1⟩

/-- C4: the cooldown gate.  First part: a flush-attempt with
`now - last_notify < COOLDOWN` sends nothing, leaves `last_notify`
unchanged and leaves the bucket to exactly its pruned events, whatever
they are.  Second part: after any flush that reached delivery at `t1`,
every flush-attempt at a `t2` with `t2 - t1 < COOLDOWN` sends
nothing. -/
theorem c4_cooldown_gate :
    (∀ (photoOk : Bool) (mint : Option String) (now : ℚ) (st : BotState),
      now - st.last_notify mint < COOLDOWN →
      (try_send_for_token photoOk mint now st).sent = none
      ∧ (try_send_for_token photoOk mint now st).state.last_notify mint = st.last_notify mint
      ∧ (try_send_for_token photoOk mint now st).state.token_events mint =
          prune now (st.token_events mint))
    ∧ (∀ (p1 p2 : Bool) (mint : Option String) (t1 t2 : ℚ) (st : BotState),
      (try_send_for_token p1 mint t1 st).sent ≠ none →
      t2 - t1 < COOLDOWN →
      (try_send_for_token p2 mint t2 (try_send_for_token p1 mint t1 st).state).sent = none) := by
  refine ⟨fun photoOk mint now st h => cooldown_blocks photoOk mint now st h, ?_⟩
  intro p1 p2 mint t1 t2 st hsent hlt
  have hstamp := sent_forces_commit p1 mint t1 st hsent
  have h2 : t2 - (try_send_for_token p1 mint t1 st).state.last_notify mint < COOLDOWN := by
    rw [hstamp]; exact hlt
  exact (cooldown_blocks p2 mint t2 _ h2).1

/-- C4 witness: a flush at t = 360 (one event of age exactly `WINDOW`)
reaches delivery; the attempt at t = 400, 40 s later, is suppressed;
and a fresh attempt at t = 100 under an active cooldown
(100 - 0 < 300) is a no-op that keeps the pruned bucket and the old
`last_notify`. -/
theorem c4_cooldown_gate_witness :
    ((100 : ℚ) - wSt.last_notify (some "T") < COOLDOWN
      ∧ (try_send_for_token true (some "T") 100 wSt).sent = none
      ∧ (try_send_for_token true (some "T") 100 wSt).state.last_notify (some "T") =
          wSt.last_notify (some "T")
      ∧ (try_send_for_token true (some "T") 100 wSt).state.token_events (some "T") =
          prune 100 (wSt.token_events (some "T")))
    ∧ ((try_send_for_token true (some "T") 360 wSt).sent ≠ none
      ∧ (400 : ℚ) - 360 < COOLDOWN
      ∧ (try_send_for_token true (some "T") 400
          (try_send_for_token true (some "T") 360 wSt).state).sent = none) := by
  constructor
  · have h := c4_cooldown_gate.1 true (some "T") 100 wSt (by decide)
    exact ⟨by decide, h.1, h.2.1, h.2.2⟩
  · refine ⟨by decide, by decide, ?_⟩
    exact c4_cooldown_gate.2 true true (some "T") 360 400 wSt (by decide) (by decide)

/-- C5: the window gate.  When the earliest event remaining after the
prune is younger than `WINDOW`, the flush-attempt sends nothing, writes
the pruned list back, and leaves `last_notify` unchanged. -/
theorem c5_window_gate (photoOk : Bool) (mint : Option String) (now : ℚ)
    (st : BotState) (e0 : Event)
    (hhead : (prune now (st.token_events mint)).head? = some e0)
    (hwin : now - e0.ts < WINDOW) :
    (try_send_for_token photoOk mint now st).sent = none
    ∧ (try_send_for_token photoOk mint now st).state.token_events mint =
        prune now (st.token_events mint)
    ∧ (try_send_for_token photoOk mint now st).state.last_notify mint =
        st.last_notify mint := by
  rcases try_send_cases photoOk mint now st with ⟨hL, heq⟩ | ⟨_, hpr, heq⟩ |
      ⟨e1, h1, _, heq⟩ | ⟨e1, h1, _, h3, heq⟩
  · rw [hL] at hhead; simp [prune] at hhead
  · rw [hpr] at hhead; simp at hhead
  · rw [heq]; exact ⟨rfl, token_events_setEvents_self st mint _, rfl⟩
  · rw [h1] at hhead
    injection hhead with he
    subst he
    exact absurd hwin (not_lt.mpr h3)

/-- C5 witness: one event at t = 350; at t = 360 its age is 10 < 60, so
nothing is sent, the bucket keeps the (pruned) event and `last_notify`
stays 0. -/
theorem c5_window_gate_witness :
    ((prune 360 (wStYoung.token_events (some "T"))).head? = some (mkEv 350 6)
      ∧ (360 : ℚ) - (mkEv 350 6).ts < WINDOW)
    ∧ (try_send_for_token true (some "T") 360 wStYoung).sent = none
    ∧ (try_send_for_token true (some "T") 360 wStYoung).state.token_events (some "T") =
        prune 360 (wStYoung.token_events (some "T"))
    ∧ (try_send_for_token true (some "T") 360 wStYoung).state.last_notify (some "T") =
        wStYoung.last_notify (some "T") := by
  refine ⟨⟨by decide, by decide⟩, ?_⟩
  exact c5_window_gate true (some "T") 360 wStYoung (mkEv 350 6) (by decide) (by decide)

/-- Walking a snapshot whose prefix succeeds and whose next key raises:
the loop attempts the prefix and the raising key, then the exception
escapes the `for`. -/
theorem run_for_prefix_error (attempt : Option String → Except String Unit)
    (xs : List (Option String)) (m : Option String) (err : String)
    (ys : List (Option String))
    (hok : ∀ x ∈ xs, attempt x = Except.ok ())
    (herr : attempt m = Except.error err) :
    run_for attempt (xs ++ m :: ys) = (xs ++ [m], some err) := by
  induction xs with
  | nil => simp [run_for, herr]
  | cons a as ih =>
    have ha := hok a (List.mem_cons_self a as)
    have ih2 := ih (fun x hx => hok x (List.mem_cons_of_mem a hx))
    simp [run_for, ha, ih2]

/-- C3 (amended): an exception from one token's flush-attempt never
terminates the sweeper loop — every tick reports "continue" — but it
does abort the remainder of that tick: when the keys before `m` succeed
and `m` raises, exactly the prefix up to and including `m` is
attempted and the keys after `m` are skipped for that tick. -/
theorem c3_tick_behavior :
    (∀ (attempt : Option String → Except String Unit) (mints : List (Option String)),
      (sweeper_tick attempt mints).2 = true)
    ∧ (∀ (attempt : Option String → Except String Unit) (xs : List (Option String))
        (m : Option String) (err : String) (ys : List (Option String)),
      (∀ x ∈ xs, attempt x = Except.ok ()) →
      attempt m = Except.error err →
      sweeper_tick attempt (xs ++ m :: ys) = (xs ++ [m], true)) := by
  refine ⟨fun attempt mints => rfl, ?_⟩
  intro attempt xs m err ys hok herr
  unfold sweeper_tick
  rw [run_for_prefix_error attempt xs m err ys hok herr]

/-- C3 witness: with a snapshot of two tokens where the first raises,
the tick attempts exactly the first token and the sweeper survives. -/
theorem c3_tick_behavior_witness :
    ((∀ x ∈ ([] : List (Option String)), raiseOnA x = Except.ok ())
      ∧ raiseOnA (some "A") = Except.error "boom")
    ∧ sweeper_tick raiseOnA ([] ++ some "A" :: [some "B"]) = ([] ++ [some "A"], true) := by
  refine ⟨⟨by simp, rfl⟩, ?_⟩
  exact c3_tick_behavior.2 raiseOnA [] (some "A") "boom" [some "B"] (by simp) rfl

/-- C3 counterexample: in the tick over the snapshot [A, B] where the
flush-attempt for A raises, token B — still in the snapshot — is never
attempted, refuting "the remaining tokens in that tick's key snapshot
are still each attempted"; the loop itself survives. -/
theorem c3_remaining_token_skipped_cex :
    raiseOnA (some "A") = Except.error "boom"
    ∧ (sweeper_tick raiseOnA [some "A", some "B"]).1 = [some "A"]
    ∧ ¬ some "B" ∈ (sweeper_tick raiseOnA [some "A", some "B"]).1
    ∧ (sweeper_tick raiseOnA [some "A", some "B"]).2 = true := by
  exact ⟨rfl, rfl, by decide, rfl⟩

/-- C7: pruning properties.  (1) pruning is idempotent; (2) pruning at
`now` keeps exactly the events with `now - timestamp ≤ WINDOW`;
(3) whenever a flush-attempt on a non-empty bucket returns without
sending, the pruned list has still been written back to the bucket;
(4) every event included in a summary built at `now` satisfies
`now - timestamp ≤ WINDOW` — no event strictly older than `WINDOW` is
ever summarized. -/
theorem c7_prune_props :
    (∀ (now : ℚ) (l : List Event), prune now (prune now l) = prune now l)
    ∧ (∀ (now : ℚ) (l : List Event) (e : Event),
        e ∈ prune now l ↔ e ∈ l ∧ now - e.ts ≤ WINDOW)
    ∧ (∀ (photoOk : Bool) (mint : Option String) (now : ℚ) (st : BotState),
        st.token_events mint ≠ [] →
        (try_send_for_token photoOk mint now st).sent = none →
        (try_send_for_token photoOk mint now st).state.token_events mint =
          prune now (st.token_events mint))
    ∧ (∀ (photoOk : Bool) (mint : Option String) (now : ℚ) (st : BotState) (e : Event),
        e ∈ (try_send_for_token photoOk mint now st).summarized →
        now - e.ts ≤ WINDOW) := by
  refine ⟨prune_idem, mem_prune, ?_, ?_⟩
  · intro photoOk mint now st hne hnosent
    rcases try_send_cases photoOk mint now st with ⟨hL, heq⟩ | ⟨_, _, heq⟩ |
        ⟨e1, _, _, heq⟩ | ⟨e1, _, _, _, heq⟩
    · exact absurd hL hne
    · rw [heq]; exact token_events_setEvents_self st mint _
    · rw [heq]; exact token_events_setEvents_self st mint _
    · rw [heq] at hnosent; simp at hnosent
  · intro photoOk mint now st e hmem
    rcases try_send_cases photoOk mint now st with ⟨_, heq⟩ | ⟨_, _, heq⟩ |
        ⟨e1, _, _, heq⟩ | ⟨e1, _, _, _, heq⟩
    · rw [heq] at hmem; simp at hmem
    · rw [heq] at hmem; simp at hmem
    · rw [heq] at hmem; simp at hmem
    · rw [heq] at hmem
      exact ((mem_prune now (st.token_events mint) e).mp hmem).2

/-- C7 witness: a window-gated no-op at t = 360 still persists the
pruned bucket, and the one event summarized by the flush at t = 360 on
`wSt` is within the window. -/
theorem c7_prune_props_witness :
    ((wStYoung.token_events (some "T") ≠ [])
      ∧ (try_send_for_token true (some "T") 360 wStYoung).sent = none
      ∧ (try_send_for_token true (some "T") 360 wStYoung).state.token_events (some "T") =
          prune 360 (wStYoung.token_events (some "T")))
    ∧ (mkEv 300 6 ∈ (try_send_for_token true (some "T") 360 wSt).summarized
      ∧ (360 : ℚ) - (mkEv 300 6).ts ≤ WINDOW) := by
  refine ⟨⟨by decide, by decide, ?_⟩, ⟨by decide, ?_⟩⟩
  · exact c7_prune_props.2.2.1 true (some "T") 360 wStYoung (by decide) (by decide)
  · exact c7_prune_props.2.2.2 true (some "T") 360 wSt (mkEv 300 6) (by decide)

/-- C9 (amended): the source holds the global lock for the whole of
`try_send_for_token`, so every Notification Sink call in its action
trace occurs while the lock is held — delivery does NOT run with the
lock released. -/
theorem c9_sends_under_lock (photoOk : Bool) (mint : Option String) (now : ℚ)
    (st : BotState) :
    sends_inside_lock (try_send_actions photoOk mint now st) = true := by
  unfold try_send_actions
  by_cases hE : (st.token_events mint).isEmpty
  · simp only [if_pos hE]; rfl
  · simp only [if_neg hE]
    cases hP : (prune now (st.token_events mint)).head? with
    | none => rfl
    | some e0 =>
      by_cases hcool : now - st.last_notify mint < COOLDOWN
      · simp only [flush_actions_body, if_pos hcool]; rfl
      · by_cases hwin : now - e0.ts < WINDOW
        · simp only [flush_actions_body, if_neg hcool, if_pos hwin]; rfl
        · cases himg : pyTruthyStr e0.imageUrl with
          | false =>
            simp only [flush_actions_body, if_neg hcool, if_neg hwin, send_actions, himg]
            rfl
          | true =>
            cases photoOk <;>
              simp only [flush_actions_body, if_neg hcool, if_neg hwin,
                send_actions, himg] <;> rfl

/-- C9 counterexample: the state `wSt` at t = 360 reaches delivery and
its trace is acquire-send-release — the text send happens at lock depth
one, refuting "the delivery call executes with the lock released". -/
theorem c9_delivery_inside_lock_cex :
    try_send_actions true (some "T") 360 wSt =
      [LockAct.acquire, LockAct.sendText, LockAct.release]
    ∧ sends_outside_lock (try_send_actions true (some "T") 360 wSt) = false := by
  exact ⟨by decide, by decide⟩

/-- A payload whose swap block fails the filter gets the "ignored"
response with the stores untouched. -/
theorem webhook_filter_ignored (now : ℚ) (meta : MetaOracle)
    (tweet : Option String × Option String) (photoOk : Bool)
    (p : HeliusPayload) (sw : SwapBlock) (st : BotState)
    (hsw : p.swap = some sw)
    (hrej : sw.fromMint ≠ some SOL_MINT ∨
      parse_amount (resolved_from_amount sw.fromAmount sw.amountIn) < 5) :
    solana_webhook now meta tweet photoOk (some p) st = (("ignored", 200), st) := by
  show (match p.swap with
        | none => (("ignored", 200), st)
        | some sw => handle_swap now meta tweet photoOk p sw st) = (("ignored", 200), st)
  rw [hsw]
  show handle_swap now meta tweet photoOk p sw st = (("ignored", 200), st)
  unfold handle_swap
  rw [if_pos hrej]

/-- C6: a structurally valid swap payload whose base asset differs from
the settlement asset, or whose parsed base amount is below the 5-unit
threshold, gets the explicit "ignored" outcome — a status distinct from
"ok" and from "bad request" — and the stores are returned completely
unchanged. -/
theorem c6_nonqualifying_swap_ignored (now : ℚ) (meta : MetaOracle)
    (tweet : Option String × Option String) (photoOk : Bool)
    (p : HeliusPayload) (sw : SwapBlock) (st : BotState)
    (hsw : p.swap = some sw)
    (hrej : sw.fromMint ≠ some SOL_MINT ∨
      parse_amount (resolved_from_amount sw.fromAmount sw.amountIn) < 5) :
    solana_webhook now meta tweet photoOk (some p) st = (("ignored", 200), st)
    ∧ (("ignored", 200) : String × Nat) ≠ ("ok", 200)
    ∧ (("ignored", 200) : String × Nat) ≠ ("bad request", 400) := by
  exact ⟨webhook_filter_ignored now meta tweet photoOk p sw st hsw hrej,
    by decide, by decide⟩

/-- C6 witness: a swap spending 9 units of a non-settlement asset is
ignored and leaves the initial state untouched. -/
theorem c6_nonqualifying_swap_ignored_witness :
    ((wPayload wSwapWrongMint).swap = some wSwapWrongMint
      ∧ (wSwapWrongMint.fromMint ≠ some SOL_MINT ∨
          parse_amount (resolved_from_amount wSwapWrongMint.fromAmount
            wSwapWrongMint.amountIn) < 5))
    ∧ solana_webhook 0 wMeta (none, none) true (some (wPayload wSwapWrongMint)) initState
        = (("ignored", 200), initState) := by
  refine ⟨⟨rfl, by decide⟩, ?_⟩
  exact (c6_nonqualifying_swap_ignored 0 wMeta (none, none) true
    (wPayload wSwapWrongMint) wSwapWrongMint initState rfl (by decide)).1

/-- C10: when the resolved base-amount value is not parseable as a
number (or both amount fields are absent, so the chain defaults to 0),
the ingest path coerces the amount to 0, which is below the threshold,
and returns the same observable outcome as any below-threshold swap:
status "ignored" with HTTP 200 and the stores unchanged. -/
theorem c10_unparseable_amount_ignored (now : ℚ) (meta : MetaOracle)
    (tweet : Option String × Option String) (photoOk : Bool)
    (p : HeliusPayload) (sw : SwapBlock) (st : BotState)
    (hsw : p.swap = some sw)
    (hbad : (resolved_from_amount sw.fromAmount sw.amountIn).parsed = none
      ∨ (sw.fromAmount = none ∧ sw.amountIn = none)) :
    parse_amount (resolved_from_amount sw.fromAmount sw.amountIn) = 0
    ∧ solana_webhook now meta tweet photoOk (some p) st = (("ignored", 200), st) := by
  have h0 : parse_amount (resolved_from_amount sw.fromAmount sw.amountIn) = 0 := by
    rcases hbad with h | ⟨h1, h2⟩
    · simp [parse_amount, h]
    · simp [resolved_from_amount, pyOrRaw, h1, h2, zeroRaw, parse_amount]
  refine ⟨h0, ?_⟩
  refine webhook_filter_ignored now meta tweet photoOk p sw st hsw (Or.inr ?_)
  rw [h0]
  norm_num

/-- C10 witness: a swap from the settlement asset whose amount field
holds a non-numeric string is ignored with HTTP 200 and the state is
untouched — the base asset was right, only the coerced amount (0)
failed the threshold. -/
theorem c10_unparseable_amount_ignored_witness :
    ((wPayload wSwapBadAmount).swap = some wSwapBadAmount
      ∧ (resolved_from_amount wSwapBadAmount.fromAmount wSwapBadAmount.amountIn).parsed = none
      ∧ wSwapBadAmount.fromMint = some SOL_MINT)
    ∧ parse_amount (resolved_from_amount wSwapBadAmount.fromAmount wSwapBadAmount.amountIn) = 0
    ∧ solana_webhook 0 wMeta (none, none) true (some (wPayload wSwapBadAmount)) initState
        = (("ignored", 200), initState) := by
  refine ⟨⟨rfl, by decide, rfl⟩, ?_⟩
  exact c10_unparseable_amount_ignored 0 wMeta (none, none) true
    (wPayload wSwapBadAmount) wSwapBadAmount initState rfl (Or.inl (by decide))

/-- The source's `items += ...` accumulation equals the concatenation
of the per-event blocks. -/
theorem foldl_items_eq (events : List Event) (acc : String) :
    events.foldl (fun a e => a ++ item_of e) acc = acc ++ items_of events := by
  induction events generalizing acc with
  | nil => simp [items_of, String.append_empty]
  | cons e rest ih =>
    simp only [List.foldl_cons, items_of, ih (acc ++ item_of e), String.append_assoc]

/-- C8 (amended): the flushed summary for a non-empty event list is
exactly header ++ per-event blocks ++ optional social section ++
footer, paired with the first event's image; the header carries the
symbol, the event count and the 4-decimal total; the social section,
when the FIRST event's tweet text is truthy, carries the first —
i.e. earliest — event's snapshot (not the most recent one); the footer
carries the raw token identifier. -/
theorem c8_message_shape (symbol : String) (e0 : Event) (rest : List Event) :
    format_event_summary symbol (e0 :: rest)
      = (header_of symbol (e0 :: rest) ++ items_of (e0 :: rest)
          ++ tweet_section_of (e0 :: rest) ++ footer_of (e0 :: rest), e0.imageUrl)
    ∧ header_of symbol (e0 :: rest)
        = "🔥 *" ++ symbol ++ "* — " ++ toString (e0 :: rest).length
            ++ " buys aggregated • " ++ fmt4 (total_sol_of (e0 :: rest)) ++ " SOL total\n\n"
    ∧ tweet_section_of (e0 :: rest)
        = (if pyTruthyStr e0.tweetText then
            tweet_block (e0.tweetText.getD "") e0.tweetLink else "")
    ∧ footer_of (e0 :: rest) = "🪪 Mint: `" ++ pyShowOptStr e0.mint ++ "`" := by
  refine ⟨?_, rfl, rfl, rfl⟩
  unfold format_event_summary
  simp only [foldl_items_eq, String.empty_append]
  unfold header_of tweet_section_of footer_of
  simp only [List.head?_cons, String.append_assoc]

set_option maxRecDepth 10000 in
/-- C8 counterexample: with two summarized events whose snapshots
differ, the message's social section displays the FIRST (earliest)
event's snapshot ("old tweet"), while the most recent snapshot among
the summarized events — what the claim says the section carries — is
the later event's ("new tweet"), and the two renderings differ. -/
theorem c8_social_not_most_recent_cex :
    (format_event_summary "TOK" [cEvOld, cEvNew]).1
      = header_of "TOK" [cEvOld, cEvNew] ++ items_of [cEvOld, cEvNew]
        ++ tweet_block "old tweet" (some "https://x.com/old")
        ++ footer_of [cEvOld, cEvNew]
    ∧ most_recent_social_spec [cEvOld, cEvNew] = (some "new tweet", some "https://x.com/new")
    ∧ tweet_block "old tweet" (some "https://x.com/old")
        ≠ tweet_block "new tweet" (some "https://x.com/new") := by
  exact ⟨by decide, by decide, by decide⟩

/-- C1: the specification's walkthrough, replayed against the code with
base instant 1000.  The attempt at t = 1031 is a no-op (window not yet
elapsed) as claimed; but at t = 1061 the code prunes the t = 1000 event
(its age 61 exceeds WINDOW) and then finds the earliest survivor only
51 s old, so — contrary to the claim — nothing is sent and the bucket
keeps two events; after the new event at t = 1065 the attempt at
t = 1066 is again a window-gated no-op (no cooldown is involved: no
flush ever happened); and at t = 1365 every buffered event is pruned as
stale and the attempt clears the bucket without sending.  No attempt in
the whole scenario ever sends. -/
theorem c1_scenario_trace :
    (scenR31.sent = none
      ∧ scenR31.state.token_events (some "T") = [mkEv 1000 5, mkEv 1010 6, mkEv 1030 7])
    ∧ (scenR61.sent = none
      ∧ scenR61.state.token_events (some "T") = [mkEv 1010 6, mkEv 1030 7])
    ∧ scenSt65.token_events (some "T") = [mkEv 1010 6, mkEv 1030 7, mkEv 1065 6]
    ∧ scenR66.sent = none
    ∧ (scenR365.sent = none
      ∧ scenR365.state.token_events (some "T") = []) := by
  exact ⟨⟨by decide, by decide⟩, ⟨by decide, by decide⟩, by decide, by decide,
    by decide, by decide⟩

/-- Supporting observation for the scenario divergence: a flush-attempt
can only reach delivery when the earliest event remaining after the
prune is EXACTLY `WINDOW` old — the prune keeps only ages ≤ WINDOW
while the window gate demands the earliest age ≥ WINDOW.  With
real-valued wall-clock timestamps this boundary coincidence is the only
way the bot ever sends. -/
theorem flush_requires_exact_window_age (photoOk : Bool) (mint : Option String)
    (now : ℚ) (st : BotState)
    (h : (try_send_for_token photoOk mint now st).sent ≠ none) :
    ∃ e0, (prune now (st.token_events mint)).head? = some e0
      ∧ now - e0.ts = WINDOW := by
  rcases try_send_cases photoOk mint now st with ⟨_, heq⟩ | ⟨_, _, heq⟩ |
      ⟨e1, _, _, heq⟩ | ⟨e1, h1, _, h3, heq⟩
  · rw [heq] at h; exact absurd rfl h
  · rw [heq] at h; exact absurd rfl h
  · rw [heq] at h; exact absurd rfl h
  · refine ⟨e1, h1, ?_⟩
    have hmem : e1 ∈ prune now (st.token_events mint) := by
      cases hq : prune now (st.token_events mint) with
      | nil => rw [hq] at h1; simp at h1
      | cons a t =>
        rw [hq] at h1
        simp only [List.head?_cons, Option.some.injEq] at h1
        rw [← h1]
        exact List.mem_cons_self a t
    have hle := ((mem_prune now (st.token_events mint) e1).mp hmem).2
    exact le_antisymm hle h3
